import Mathlib

set_option linter.unusedVariables false

/-!
Shallow embedding of the pipeline orchestrator of the AI-Instagram-Content-Generator
repository: `service_ui/utils/workflow_manager.py` (class `WorkflowManager`) and
`service_ui/services/microservice_client.py` (class `MicroserviceClient`).

Modelling conventions:
* Python result dictionaries are modelled by structures whose fields are the keys the
  orchestrator reads.  A key that may be absent (or bound to `None`) is an `Option`;
  every read site in the source uses `dict.get(key, default)`, modelled by `Option.getD`.
* `st.session_state.workflow_state` is the `WorkflowState` structure, threaded
  explicitly.  The keys `keywords` and `description` are absent from the dictionary
  built by `reset_workflow_state` and only written by `upload_materials`; since every
  read supplies the defaults `[]` and the empty string, they are modelled as plain
  fields initialised to those defaults.
* `time.strftime` timestamps are threaded as a `now : String` parameter.
* Each `MicroserviceClient` invoke method never raises (it wraps the whole body in
  `try/except` and returns an error dictionary); within one orchestrator transition
  each method is called at most once, so the remote world is modelled as a
  `ClientResults` record giving the dictionary each gateway call returns.
* Inside the orchestrator `try` blocks the only remaining source of exceptions is an
  attribute access `x.get(...)` on a value that is `None` (workflow keys initialised
  to `None`); those paths are modelled explicitly and branch to the `except` handler.
  The `AttributeError` rendering is modelled without its quote characters.
* Python `0.7` is the rational `7/10` (the orchestrator only threads the score, it
  never computes with it).
-/

/-- One entry of `workflow_state['status_logs']`: `{'time': ..., 'message': ..., 'status': ...}`. -/
structure LogEntry where
  time : String
  message : String
  status : String
deriving Repr, DecidableEq

/-- Result dictionary of the Upload gateway as read by the orchestrator:
`success`, `assets.images`, `uploaded_count`, `error`. -/
structure UploadResult where
  success : Bool
  images : List String
  uploaded_count : Option Nat
  error : Option String
deriving Repr, DecidableEq

/-- Result dictionary of the Trend gateway: `error`, `trends`, `hashtags`. -/
structure TrendResult where
  error : Option String
  trends : List String
  hashtags : List String
deriving Repr, DecidableEq

/-- Result dictionary of the Analyze gateway: `error`, `visual_summary`,
`video_summary`, `keywords`. -/
structure AnalysisResult where
  error : Option String
  visual_summary : Option String
  video_summary : Option String
  keywords : List String
deriving Repr, DecidableEq

/-- Result dictionary of the Generate gateway: `error`, `filename`, `image_path`. -/
structure GenerationResult where
  error : Option String
  filename : Option String
  image_path : Option String
deriving Repr, DecidableEq

/-- Innermost score dictionary: `quality_assessment.overall_score.overall_score`. -/
structure OverallScore where
  overall_score : Option ℚ
deriving Repr, DecidableEq

/-- The `quality_assessment` sub-dictionary of the Quality-Assess result. -/
structure QualityAssessment where
  overall_score : Option OverallScore
deriving Repr, DecidableEq

/-- Result dictionary of the Quality-Assess gateway. -/
structure QualityResult where
  error : Option String
  quality_assessment : Option QualityAssessment
deriving Repr, DecidableEq

/-- The `finalized_content` sub-dictionary of the Quality-Finalize result. -/
structure FinalizedContent where
  hashtags : List String
deriving Repr, DecidableEq

/-- Result dictionary of the Quality-Finalize gateway. -/
structure FinalizeResult where
  error : Option String
  finalized_content : Option FinalizedContent
deriving Repr, DecidableEq

/-- The `final_output` dictionary assembled by `assess_quality`. -/
structure FinalOutput where
  image_data : GenerationResult
  quality_data : QualityResult
  finalized_content : FinalizeResult
  quality_score : ℚ
deriving Repr, DecidableEq

/-- The mutable `st.session_state.workflow_state` dictionary. -/
structure WorkflowState where
  step : Nat
  trend_data : Option TrendResult
  analysis_data : Option AnalysisResult
  generation_data : Option GenerationResult
  quality_data : Option QualityResult
  uploaded_files : List String
  status_logs : List LogEntry
  final_output : Option FinalOutput
  keywords : List String
  description : String
deriving Repr, DecidableEq

/-- The dictionary each gateway call of one orchestrator transition returns.
The client methods convert every transport failure, timeout and non-2xx response
into such a dictionary instead of raising (see `gatewayInvoke` below). -/
structure ClientResults where
  upload : UploadResult
  trend : TrendResult
  analysis : AnalysisResult
  generation : GenerationResult
  assess : QualityResult
  finalize : FinalizeResult
deriving Repr, DecidableEq

/-- One outgoing gateway call recorded with the arguments the orchestrator passed. -/
inductive GatewayCall where
  | uploadImages (files : List String)
  | getYoutubeTrends
  | analyzeDriveContent (folder_id : Option String) (keywords : List String)
  | generateInstagramContent (visual_summary video_summary : String)
      (keywords trends : List String) (style : String)
  | assessImageQuality (image_path prompt : String)
  | finalizeContent (image_path original_prompt style platform : String) (max_hashtags : Nat)
deriving Repr, DecidableEq

/-- Whether a recorded call targets the Quality service (assess or finalize). -/
def GatewayCall.isQuality : GatewayCall → Bool
  | .assessImageQuality _ _ => true
  | .finalizeContent _ _ _ _ _ => true
  | _ => false

/-- Outcome of one orchestrator transition: the returned boolean, the state left in
`st.session_state.workflow_state`, and the gateway calls issued, in order. -/
structure OpResult where
  ok : Bool
  state : WorkflowState
  calls : List GatewayCall
deriving Repr, DecidableEq

/-- Python truthiness of `result.get('error')`: the key must be present (not `None`)
and bound to a non-empty string. -/
def errTruthy : Option String → Bool
  | none => false
  | some s => decide (s ≠ "")

/-- Rendering of the `AttributeError` raised by `None.get(...)`, modelled without
its quote characters. -/
def noneTypeGetMessage : String := "NoneType object has no attribute get"

/-- The documented empty trend default committed on Trend failure:
`{"trends": [], "hashtags": []}` (no `error` key). -/
def emptyTrendData : TrendResult := { error := none, trends := [], hashtags := [] }

/-- Two-decimal rendering of the quality score (`f-string :.2f`), modelled by the
exact rational rendering; the text of this one log message is not load-bearing. -/
def formatScore (q : ℚ) : String := toString q

/-- `WorkflowManager.reset_workflow_state`: the freshly initialised dictionary. -/
def WorkflowManager.reset_workflow_state : WorkflowState :=
  { step := 0
    trend_data := none
    analysis_data := none
    generation_data := none
    quality_data := none
    uploaded_files := []
    status_logs := []
    final_output := none
    keywords := []
    description := "" }

/-- `WorkflowManager.add_status_log`: append one `{time, message, status}` entry. -/
def WorkflowManager.add_status_log (s : WorkflowState) (now message status : String) :
    WorkflowState :=
  { s with status_logs := s.status_logs ++ [{ time := now, message := message, status := status }] }

/-- `WorkflowManager.get_status_logs`: `workflow_state.get('status_logs', [])`. -/
def WorkflowManager.get_status_logs (s : WorkflowState) : List LogEntry :=
  s.status_logs

/-- `WorkflowManager.get_current_step`: `workflow_state.get('step', 0)`. -/
def WorkflowManager.get_current_step (s : WorkflowState) : Nat :=
  s.step

/-- `WorkflowManager.upload_materials`.  `uploaded_files` is the list of files the
caller hands in (their bytes are read and forwarded to the Upload gateway). -/
def WorkflowManager.upload_materials (client : ClientResults) (uploaded_files : List String)
    (keywords : List String) (description : String) (now : String) (s : WorkflowState) :
    OpResult :=
  let s := WorkflowManager.add_status_log s now "📤 Materyaller yükleniyor..." "info"
  let upload_result := client.upload
  let calls := [GatewayCall.uploadImages uploaded_files]
  if upload_result.success then
    let s := { s with uploaded_files := upload_result.images
                      keywords := keywords
                      description := description
                      step := 1 }
    let uploaded_count := upload_result.uploaded_count.getD uploaded_files.length
    let s := WorkflowManager.add_status_log s now
      ("✅ " ++ toString uploaded_count ++ " dosya başarıyla yüklendi") "success"
    let s := WorkflowManager.add_status_log s now "🎯 Process adımı için hazır" "info"
    ⟨true, s, calls⟩
  else
    let error_msg := upload_result.error.getD "Bilinmeyen hata"
    let s := WorkflowManager.add_status_log s now ("❌ Yükleme hatası: " ++ error_msg) "error"
    ⟨false, s, calls⟩

/-- `WorkflowManager.start_process`: Trend analysis (degrading to `emptyTrendData`
on error), then material analysis (fatal on error). -/
def WorkflowManager.start_process (client : ClientResults) (now : String)
    (s : WorkflowState) : OpResult :=
  let s := WorkflowManager.add_status_log s now "🚀 İşlem başlatılıyor..." "info"
  let s := WorkflowManager.add_status_log s now "📈 YouTube trend analizi yapılıyor..." "info"
  let trend_result := client.trend
  let s :=
    if errTruthy trend_result.error then
      let s := WorkflowManager.add_status_log s now
        ("⚠️ Trend analizi hatası: " ++ trend_result.error.getD "") "warning"
      { s with trend_data := some emptyTrendData }
    else
      let s := { s with trend_data := some trend_result }
      WorkflowManager.add_status_log s now
        ("✅ " ++ toString trend_result.trends.length ++ " trend analizi tamamlandı") "success"
  let s := WorkflowManager.add_status_log s now "🔍 Yüklenen materyaller analiz ediliyor..." "info"
  let keywords := s.keywords
  let analysis_result := client.analysis
  let calls := [GatewayCall.getYoutubeTrends, GatewayCall.analyzeDriveContent none keywords]
  if errTruthy analysis_result.error then
    let s := WorkflowManager.add_status_log s now
      ("❌ Materyal analizi hatası: " ++ analysis_result.error.getD "") "error"
    ⟨false, s, calls⟩
  else
    let s := { s with analysis_data := some analysis_result }
    let s := WorkflowManager.add_status_log s now
      ("✅ Materyal analizi tamamlandı - " ++ toString analysis_result.keywords.length
        ++ " anahtar kelime") "success"
    let s := { s with step := 2 }
    let s := WorkflowManager.add_status_log s now
      "🎯 İşlem tamamlandı - Görsel üretimi için hazır" "success"
    ⟨true, s, calls⟩

/-- `WorkflowManager.generate_content`.  When `analysis_data` or `trend_data` is still
`None`, the attribute accesses on lines 127/130 of the source raise and the `except`
handler logs an error and returns `False` before the gateway is called. -/
def WorkflowManager.generate_content (client : ClientResults) (style : String)
    (now : String) (s : WorkflowState) : OpResult :=
  let s := WorkflowManager.add_status_log s now "🎨 İçerik üretimi başlatılıyor..." "info"
  match s.analysis_data, s.trend_data with
  | none, _ =>
    ⟨false, WorkflowManager.add_status_log s now
      ("❌ İçerik üretimi sırasında hata: " ++ noneTypeGetMessage) "error", []⟩
  | some _, none =>
    ⟨false, WorkflowManager.add_status_log s now
      ("❌ İçerik üretimi sırasında hata: " ++ noneTypeGetMessage) "error", []⟩
  | some analysis_data, some trend_data =>
    let visual_summary := analysis_data.visual_summary.getD "AI generated content"
    let video_summary := analysis_data.video_summary.getD ""
    let keywords := analysis_data.keywords
    let trends := trend_data.trends.take 5
    let s := WorkflowManager.add_status_log s now
      ("📝 Prompt hazırlanıyor - " ++ toString keywords.length ++ " anahtar kelime, "
        ++ toString trends.length ++ " trend") "info"
    let generation_result := client.generation
    let calls := [GatewayCall.generateInstagramContent visual_summary video_summary
      keywords trends style]
    if errTruthy generation_result.error then
      let s := WorkflowManager.add_status_log s now
        ("❌ İçerik üretimi hatası: " ++ generation_result.error.getD "") "error"
      ⟨false, s, calls⟩
    else
      let s := { s with generation_data := some generation_result }
      let filename := generation_result.filename.getD "Bilinmiyor"
      let s := WorkflowManager.add_status_log s now ("✅ Görsel üretildi: " ++ filename) "success"
      let s := { s with step := 3 }
      ⟨true, s, calls⟩

/-- `WorkflowManager.assess_quality`: quality assessment (degrading to the default
score `0.7` on error), then finalization (fatal on error).  When `generation_data`
or `analysis_data` is still `None`, the attribute accesses on lines 167/168 of the
source raise before any gateway call. -/
def WorkflowManager.assess_quality (client : ClientResults) (now : String)
    (s : WorkflowState) : OpResult :=
  let s := WorkflowManager.add_status_log s now "🔍 Kalite değerlendirmesi başlatılıyor..." "info"
  match s.generation_data, s.analysis_data with
  | none, _ =>
    ⟨false, WorkflowManager.add_status_log s now
      ("❌ Kalite değerlendirmesi sırasında hata: " ++ noneTypeGetMessage) "error", []⟩
  | some _, none =>
    ⟨false, WorkflowManager.add_status_log s now
      ("❌ Kalite değerlendirmesi sırasında hata: " ++ noneTypeGetMessage) "error", []⟩
  | some generation_data, some analysis_data =>
    let image_path := generation_data.image_path.getD ""
    let prompt := analysis_data.visual_summary.getD "AI generated content"
    let quality_result := client.assess
    let sq :=
      if errTruthy quality_result.error then
        (WorkflowManager.add_status_log s now
          ("⚠️ Kalite değerlendirmesi hatası: " ++ quality_result.error.getD "") "warning",
         (7/10 : ℚ))
      else
        let quality_score :=
          (((quality_result.quality_assessment.getD { overall_score := none }).overall_score.getD
            { overall_score := none }).overall_score).getD (7/10 : ℚ)
        (WorkflowManager.add_status_log s now
          ("📊 Kalite skoru: " ++ formatScore quality_score) "info", quality_score)
    let s := sq.1
    let quality_score := sq.2
    let s := WorkflowManager.add_status_log s now "🏷️ İçerik finalize ediliyor..." "info"
    let finalize_result := client.finalize
    let calls := [GatewayCall.assessImageQuality image_path prompt,
      GatewayCall.finalizeContent image_path prompt "modern" "instagram" 15]
    if errTruthy finalize_result.error then
      let s := WorkflowManager.add_status_log s now
        ("❌ Finalizasyon hatası: " ++ finalize_result.error.getD "") "error"
      ⟨false, s, calls⟩
    else
      let final_output : FinalOutput :=
        { image_data := generation_data
          quality_data := quality_result
          finalized_content := finalize_result
          quality_score := quality_score }
      let s := { s with quality_data := some quality_result
                        final_output := some final_output
                        step := 4 }
      let hashtag_count := (finalize_result.finalized_content.getD { hashtags := [] }).hashtags.length
      let s := WorkflowManager.add_status_log s now
        ("✅ İçerik hazır! " ++ toString hashtag_count ++ " hashtag oluşturuldu") "success"
      let s := WorkflowManager.add_status_log s now "🎉 Yayınlamaya hazır!" "success"
      ⟨true, s, calls⟩

/-!
Client calling skeleton (`service_ui/services/microservice_client.py`).  Every invoke
method has the shape
`try { response = request(...); response.raise_for_status(); return response.json() }
 except e { return {"error": str(e), "success": False} }`.
The world visible to one call is the `HttpOutcome`: either the `requests` call raised
(timeout, connection refused, ...), or it produced a response with a status code and
a body whose JSON parse either succeeds with the typed payload or fails.
-/

/-- What the HTTP layer hands back to one client method. -/
inductive HttpOutcome (α : Type) where
  | raised (msg : String)
  | response (status : Nat) (body : Except String α)
deriving Repr

/-- The `{"error": str(e), "success": False}` dictionary a client method returns on
any caught exception. -/
structure ErrorDict where
  error : String
  success : Bool
deriving Repr, DecidableEq

/-- Rendering of the `requests.HTTPError` that `raise_for_status` raises on a 4xx/5xx
status code (the source interpolates the status code into the message). -/
def httpStatusMessage (status : Nat) : String :=
  toString status ++ " Error"

/-- Whether the outcome makes the method take its `except` path: the request raised,
`raise_for_status` raised (status at least 400), or `response.json()` raised. -/
def HttpOutcome.isFailure {α : Type} : HttpOutcome α → Bool
  | .raised _ => true
  | .response status body =>
    decide (400 ≤ status) || (match body with | .error _ => true | .ok _ => false)

/-- The `str(e)` of the exception caught on a failure outcome (meaningless on a
success outcome). -/
def HttpOutcome.failureMsg {α : Type} : HttpOutcome α → String
  | .raised msg => msg
  | .response status body =>
    if 400 ≤ status then httpStatusMessage status
    else match body with | .error m => m | .ok _ => ""

/-- The shared `try/except` skeleton of every invoke method: the parsed JSON payload
on success, otherwise the error dictionary — never a raised exception (the function
is total). -/
def gatewayInvoke {α : Type} (o : HttpOutcome α) : α ⊕ ErrorDict :=
  match o with
  | .raised msg => Sum.inr { error := msg, success := false }
  | .response status body =>
    if 400 ≤ status then Sum.inr { error := httpStatusMessage status, success := false }
    else
      match body with
      | .error msg => Sum.inr { error := msg, success := false }
      | .ok a => Sum.inl a

/-- `MicroserviceClient.upload_images` (request construction — multipart form over
the file bytes — happens inside the same `try`). -/
def MicroserviceClient.upload_images (files : List String)
    (o : HttpOutcome UploadResult) : UploadResult ⊕ ErrorDict :=
  gatewayInvoke o

/-- `MicroserviceClient.get_youtube_trends`. -/
def MicroserviceClient.get_youtube_trends (o : HttpOutcome TrendResult) :
    TrendResult ⊕ ErrorDict :=
  gatewayInvoke o

/-- `MicroserviceClient.analyze_drive_content`. -/
def MicroserviceClient.analyze_drive_content (folder_id : Option String)
    (keywords : Option (List String)) (o : HttpOutcome AnalysisResult) :
    AnalysisResult ⊕ ErrorDict :=
  gatewayInvoke o

/-- `MicroserviceClient.generate_instagram_content`. -/
def MicroserviceClient.generate_instagram_content (visual_summary : String)
    (keywords : List String) (video_summary : String) (trends : Option (List String))
    (style : String) (o : HttpOutcome GenerationResult) :
    GenerationResult ⊕ ErrorDict :=
  gatewayInvoke o

/-- `MicroserviceClient.assess_image_quality`. -/
def MicroserviceClient.assess_image_quality (image_path prompt : String)
    (o : HttpOutcome QualityResult) : QualityResult ⊕ ErrorDict :=
  gatewayInvoke o

/-- `MicroserviceClient.finalize_content`. -/
def MicroserviceClient.finalize_content (image_path original_prompt style platform : String)
    (max_hashtags : Nat) (o : HttpOutcome FinalizeResult) :
    FinalizeResult ⊕ ErrorDict :=
  gatewayInvoke o

/-!
Reference-semantics model for the run-state read operations.  In the source,
`get_status_logs` is `return st.session_state.workflow_state.get('status_logs', [])`
and `get_workflow_data` is `return st.session_state.workflow_state.get(key)`:
both return the stored Python object itself, not a copy.  To express what a caller
mutation through the returned object does, list objects are given addresses in a
heap, the session state stores the address of its `status_logs` list, and reading
returns that address unchanged. -/

/-- Heap of Python list objects, indexed by address. -/
def ListHeap : Type := Nat → List LogEntry

/-- Dereference a list object. -/
def ListHeap.read (h : ListHeap) (addr : Nat) : List LogEntry := h addr

/-- In-place `list.append` through a reference, as a caller can perform on the value
returned by `get_status_logs`. -/
def ListHeap.appendAt (h : ListHeap) (addr : Nat) (e : LogEntry) : ListHeap :=
  fun a => if a = addr then h a ++ [e] else h a

/-- The session state as seen by the reference model: the address of the
`status_logs` list object it owns. -/
structure SessionRef where
  status_logs_addr : Nat
deriving Repr, DecidableEq

/-- `WorkflowManager.get_status_logs` under reference semantics: the source returns
the stored list object itself — i.e. its address — with no copy taken. -/
def WorkflowManager.get_status_logs_ref (ss : SessionRef) : Nat :=
  ss.status_logs_addr

/-!
Concrete fixtures used by witnesses and counterexamples: a fully successful remote
world `okClient` and variants in which a single gateway fails.
-/

/-- Successful Upload gateway response. -/
def okUpload : UploadResult :=
  { success := true, images := ["uploads/image_0.jpg"], uploaded_count := some 1, error := none }

/-- Successful Trend gateway response. -/
def okTrend : TrendResult :=
  { error := none, trends := ["trend one", "trend two"], hashtags := ["#one"] }

/-- Successful Analyze gateway response. -/
def okAnalysis : AnalysisResult :=
  { error := none, visual_summary := some "a bright product photo"
    video_summary := some "", keywords := ["puzzle", "mobile"] }

/-- Successful Generate gateway response. -/
def okGeneration : GenerationResult :=
  { error := none, filename := some "poster_123.png"
    image_path := some "outputs/poster_123.png" }

/-- Successful Quality-Assess gateway response with score `0.72 = 18/25`. -/
def okQuality : QualityResult :=
  { error := none
    quality_assessment := some { overall_score := some { overall_score := some (18/25 : ℚ) } } }

/-- Successful Quality-Finalize gateway response with nine hashtags. -/
def okFinalize : FinalizeResult :=
  { error := none
    finalized_content := some
      { hashtags := ["#a", "#b", "#c", "#d", "#e", "#f", "#g", "#h", "#i"] } }

/-- Remote world in which every gateway call succeeds. -/
def okClient : ClientResults :=
  { upload := okUpload, trend := okTrend, analysis := okAnalysis
    generation := okGeneration, assess := okQuality, finalize := okFinalize }

/-- Remote world in which only the Trend gateway fails. -/
def trendDownClient : ClientResults :=
  { okClient with trend := { error := some "Connection refused", trends := [], hashtags := [] } }

/-- Remote world in which only the Analyze gateway fails. -/
def analysisDownClient : ClientResults :=
  { okClient with analysis :=
      { error := some "Connection refused", visual_summary := none
        video_summary := none, keywords := [] } }

/-- Remote world in which only the Generate gateway fails. -/
def generationDownClient : ClientResults :=
  { okClient with generation := { error := some "500 Server Error", filename := none, image_path := none } }

/-- Remote world in which only the Quality-Assess gateway fails. -/
def assessDownClient : ClientResults :=
  { okClient with assess := { error := some "Read timed out", quality_assessment := none } }

/-- Remote world in which the Quality-Assess and Quality-Finalize gateways fail. -/
def qualityDownClient : ClientResults :=
  { assessDownClient with finalize := { error := some "Read timed out", finalized_content := none } }

/-- The asset-presence invariant asserted by the spec: each stage's asset entry is
populated (non-`None`, and non-empty for the file list) exactly when the step
pointer has reached or passed that stage (MaterialsUploaded = 1, Processed = 2,
Generated = 3, QualityAssessed/Finalized = 4). -/
def assetInv (s : WorkflowState) : Prop :=
  (s.uploaded_files ≠ [] ↔ 1 ≤ s.step) ∧
  (s.trend_data.isSome = true ↔ 2 ≤ s.step) ∧
  (s.analysis_data.isSome = true ↔ 2 ≤ s.step) ∧
  (s.generation_data.isSome = true ↔ 3 ≤ s.step) ∧
  (s.quality_data.isSome = true ↔ 4 ≤ s.step) ∧
  (s.final_output.isSome = true ↔ 4 ≤ s.step)

/-- The old log sequence is a proper prefix of the new one: the operation appended
one or more entries and removed, reordered and modified none. -/
def logExtends (old new : List LogEntry) : Prop :=
  ∃ t, new = old ++ t ∧ t ≠ []

/-- Run state after `upload_materials` on a fresh run with concrete demo inputs. -/
def demoStateAfterUpload (client : ClientResults) : WorkflowState :=
  (WorkflowManager.upload_materials client ["cat.jpg"] ["puzzle", "mobile"] "demo"
    "12:00:01" WorkflowManager.reset_workflow_state).state

/-- Run state after `upload_materials` then `start_process`. -/
def demoStateAfterProcess (client : ClientResults) : WorkflowState :=
  (WorkflowManager.start_process client "12:00:02" (demoStateAfterUpload client)).state

/-- Run state after `upload_materials`, `start_process` and `generate_content`. -/
def demoStateAfterGenerate (client : ClientResults) : WorkflowState :=
  (WorkflowManager.generate_content client "modern" "12:00:03"
    (demoStateAfterProcess client)).state

/-!
Theorems.
-/

/-- Helper: the shared client skeleton maps every failure outcome to the error
dictionary carrying the caught message. -/
theorem gatewayInvoke_failure {α : Type} (o : HttpOutcome α) (h : o.isFailure = true) :
    gatewayInvoke o = Sum.inr { error := o.failureMsg, success := false } := by
  cases o with
  | raised msg => rfl
  | response status body =>
    by_cases hs : 400 ≤ status
    · simp [gatewayInvoke, HttpOutcome.failureMsg, hs]
    · cases body with
      | error m => simp [gatewayInvoke, HttpOutcome.failureMsg, hs]
      | ok a => simp [HttpOutcome.isFailure, hs] at h

/-- C5: every invoke method of the microservice client, on every input whose HTTP
outcome is a failure (remote error status, transport failure/timeout, or unparsable
body), returns a dictionary carrying the failure message in its `error` field with
`success = False`, instead of propagating an exception to the orchestrator. -/
theorem c5_client_returns_error_dicts (files : List String) (folder_id : Option String)
    (kws : Option (List String)) (vs : String) (gkws : List String) (vids : String)
    (tr : Option (List String)) (sty : String) (ip pr fip fpr fsty fpl : String) (mh : Nat)
    (o1 : HttpOutcome UploadResult) (o2 : HttpOutcome TrendResult)
    (o3 : HttpOutcome AnalysisResult) (o4 : HttpOutcome GenerationResult)
    (o5 : HttpOutcome QualityResult) (o6 : HttpOutcome FinalizeResult) :
    (o1.isFailure = true → MicroserviceClient.upload_images files o1 =
      Sum.inr { error := o1.failureMsg, success := false }) ∧
    (o2.isFailure = true → MicroserviceClient.get_youtube_trends o2 =
      Sum.inr { error := o2.failureMsg, success := false }) ∧
    (o3.isFailure = true → MicroserviceClient.analyze_drive_content folder_id kws o3 =
      Sum.inr { error := o3.failureMsg, success := false }) ∧
    (o4.isFailure = true → MicroserviceClient.generate_instagram_content vs gkws vids tr sty o4 =
      Sum.inr { error := o4.failureMsg, success := false }) ∧
    (o5.isFailure = true → MicroserviceClient.assess_image_quality ip pr o5 =
      Sum.inr { error := o5.failureMsg, success := false }) ∧
    (o6.isFailure = true → MicroserviceClient.finalize_content fip fpr fsty fpl mh o6 =
      Sum.inr { error := o6.failureMsg, success := false }) :=
  ⟨fun h => gatewayInvoke_failure o1 h, fun h => gatewayInvoke_failure o2 h,
   fun h => gatewayInvoke_failure o3 h, fun h => gatewayInvoke_failure o4 h,
   fun h => gatewayInvoke_failure o5 h, fun h => gatewayInvoke_failure o6 h⟩

/-- Witness for C5 at concrete failing outcomes: a raised timeout, a 500 status, an
unparsable body, a raised connection error, a 404 status, and an unparsable body. -/
theorem c5_witness :
    MicroserviceClient.upload_images [] (.raised "timed out") =
      Sum.inr { error := "timed out", success := false } ∧
    MicroserviceClient.get_youtube_trends (.response 500 (.ok okTrend)) =
      Sum.inr { error := "500 Error", success := false } ∧
    MicroserviceClient.analyze_drive_content none none (.response 200 (.error "invalid JSON")) =
      Sum.inr { error := "invalid JSON", success := false } ∧
    MicroserviceClient.generate_instagram_content "v" [] "" none "modern"
        (.raised "connection refused") =
      Sum.inr { error := "connection refused", success := false } ∧
    MicroserviceClient.assess_image_quality "p" "q" (.response 404 (.ok okQuality)) =
      Sum.inr { error := "404 Error", success := false } ∧
    MicroserviceClient.finalize_content "i" "o" "modern" "instagram" 15
        (.response 200 (.error "invalid JSON")) =
      Sum.inr { error := "invalid JSON", success := false } := by
  have h := c5_client_returns_error_dicts [] none none "v" [] "" none "modern" "p" "q"
    "i" "o" "modern" "instagram" 15
    (.raised "timed out") (.response 500 (.ok okTrend)) (.response 200 (.error "invalid JSON"))
    (.raised "connection refused") (.response 404 (.ok okQuality))
    (.response 200 (.error "invalid JSON"))
  exact ⟨h.1 (by decide), h.2.1 (by decide), h.2.2.1 (by decide), h.2.2.2.1 (by decide),
    h.2.2.2.2.1 (by decide), h.2.2.2.2.2 (by decide)⟩

/-- Counterexample for C8: `get_status_logs` returns the stored list object itself,
so a caller appending through the returned reference changes the state observed by a
subsequent read — the returned value is not an immutable copy. -/
theorem c8_counterexample :
    (ListHeap.appendAt (fun _ => [])
        (WorkflowManager.get_status_logs_ref { status_logs_addr := 0 })
        { time := "12:00:01", message := "injected", status := "info" }).read 0 ≠
      (fun _ => ([] : List LogEntry)) 0 := by
  decide

/-- C8 (amended): the run-state read operations return the stored object by
reference, not a copy: appending through the reference returned by
`get_status_logs` is observed by every subsequent read of the run state. -/
theorem c8_reads_alias_state (h : ListHeap) (ss : SessionRef) (e : LogEntry) :
    (h.appendAt (WorkflowManager.get_status_logs_ref ss) e).read ss.status_logs_addr =
      h.read ss.status_logs_addr ++ [e] := by
  simp [ListHeap.appendAt, ListHeap.read, WorkflowManager.get_status_logs_ref]

/-- C1: when the Trend gateway call fails and the Analyze gateway call succeeds,
`start_process` returns `True`, the run advances to step 2 (Processed), the stored
trend data is the documented empty default `{"trends": [], "hashtags": []}` —
present, not absent — and a warning-severity log entry records the trend failure. -/
theorem c1_trend_failure_degrades (client : ClientResults) (now : String)
    (s : WorkflowState) (ht : errTruthy client.trend.error = true)
    (ha : errTruthy client.analysis.error = false) :
    (WorkflowManager.start_process client now s).ok = true ∧
    (WorkflowManager.start_process client now s).state.step = 2 ∧
    (WorkflowManager.start_process client now s).state.trend_data = some emptyTrendData ∧
    ({ time := now, message := "⚠️ Trend analizi hatası: " ++ client.trend.error.getD ""
       status := "warning" } : LogEntry) ∈
      (WorkflowManager.start_process client now s).state.status_logs := by
  unfold WorkflowManager.start_process
  simp [ht, ha, WorkflowManager.add_status_log]

/-- Witness for C1: the concrete remote world in which only the Trend gateway is
down, evaluated on the reset state. -/
theorem c1_witness :
    errTruthy trendDownClient.trend.error = true ∧
    errTruthy trendDownClient.analysis.error = false ∧
    ((WorkflowManager.start_process trendDownClient "12:00:00"
        WorkflowManager.reset_workflow_state).ok = true ∧
     (WorkflowManager.start_process trendDownClient "12:00:00"
        WorkflowManager.reset_workflow_state).state.step = 2 ∧
     (WorkflowManager.start_process trendDownClient "12:00:00"
        WorkflowManager.reset_workflow_state).state.trend_data = some emptyTrendData ∧
     ({ time := "12:00:00"
        message := "⚠️ Trend analizi hatası: " ++ trendDownClient.trend.error.getD ""
        status := "warning" } : LogEntry) ∈
       (WorkflowManager.start_process trendDownClient "12:00:00"
          WorkflowManager.reset_workflow_state).state.status_logs) :=
  ⟨by decide, by decide,
   c1_trend_failure_degrades trendDownClient "12:00:00" WorkflowManager.reset_workflow_state
     (by decide) (by decide)⟩

/-- C2: when the Generate gateway call returns an error, `generate_content` returns
`False`, the step is left unchanged (so the run does not advance to Generated),
no Quality gateway (assess or finalize) is invoked during the transition, and the
last log entry has severity `error`. -/
theorem c2_generate_error_is_fatal (client : ClientResults) (style now : String)
    (s : WorkflowState) (herr : errTruthy client.generation.error = true) :
    (WorkflowManager.generate_content client style now s).ok = false ∧
    (WorkflowManager.generate_content client style now s).state.step = s.step ∧
    (∀ c ∈ (WorkflowManager.generate_content client style now s).calls,
      c.isQuality = false) ∧
    Option.map LogEntry.status
        (WorkflowManager.generate_content client style now s).state.status_logs.getLast? =
      some "error" := by
  unfold WorkflowManager.generate_content
  cases hana : s.analysis_data with
  | none => simp [hana, WorkflowManager.add_status_log]
  | some a =>
    cases htr : s.trend_data with
    | none => simp [hana, htr, WorkflowManager.add_status_log]
    | some t => simp [hana, htr, herr, WorkflowManager.add_status_log, GatewayCall.isQuality]

/-- Witness for C2: the remote world in which only the Generate gateway fails,
evaluated on the state reached by a successful upload and process. -/
theorem c2_witness :
    errTruthy generationDownClient.generation.error = true ∧
    ((WorkflowManager.generate_content generationDownClient "modern" "12:00:03"
        (WorkflowManager.start_process generationDownClient "12:00:02"
          (WorkflowManager.upload_materials generationDownClient ["cat.jpg"]
            ["puzzle", "mobile"] "demo" "12:00:01"
            WorkflowManager.reset_workflow_state).state).state).ok = false ∧
     (WorkflowManager.generate_content generationDownClient "modern" "12:00:03"
        (WorkflowManager.start_process generationDownClient "12:00:02"
          (WorkflowManager.upload_materials generationDownClient ["cat.jpg"]
            ["puzzle", "mobile"] "demo" "12:00:01"
            WorkflowManager.reset_workflow_state).state).state).state.step =
       (WorkflowManager.start_process generationDownClient "12:00:02"
          (WorkflowManager.upload_materials generationDownClient ["cat.jpg"]
            ["puzzle", "mobile"] "demo" "12:00:01"
            WorkflowManager.reset_workflow_state).state).state.step ∧
     (∀ c ∈ (WorkflowManager.generate_content generationDownClient "modern" "12:00:03"
        (WorkflowManager.start_process generationDownClient "12:00:02"
          (WorkflowManager.upload_materials generationDownClient ["cat.jpg"]
            ["puzzle", "mobile"] "demo" "12:00:01"
            WorkflowManager.reset_workflow_state).state).state).calls,
       c.isQuality = false) ∧
     Option.map LogEntry.status
        (WorkflowManager.generate_content generationDownClient "modern" "12:00:03"
          (WorkflowManager.start_process generationDownClient "12:00:02"
            (WorkflowManager.upload_materials generationDownClient ["cat.jpg"]
              ["puzzle", "mobile"] "demo" "12:00:01"
              WorkflowManager.reset_workflow_state).state).state).state.status_logs.getLast? =
       some "error") :=
  ⟨by decide,
   c2_generate_error_is_fatal generationDownClient "modern" "12:00:03"
     (WorkflowManager.start_process generationDownClient "12:00:02"
        (WorkflowManager.upload_materials generationDownClient ["cat.jpg"]
          ["puzzle", "mobile"] "demo" "12:00:01"
          WorkflowManager.reset_workflow_state).state).state (by decide)⟩

/-- C10: the finalize request issued by `assess_quality` always carries the
constants `style = "modern"`, `platform = "instagram"` and `max_hashtags = 15`.
The prior state `s` is arbitrary, so this holds irrespective of the `style`
argument any earlier `generate_content` call used for the same run. -/
theorem c10_finalize_constants (client : ClientResults) (now : String)
    (s : WorkflowState) (g : GenerationResult) (a : AnalysisResult)
    (hg : s.generation_data = some g) (ha : s.analysis_data = some a) :
    (WorkflowManager.assess_quality client now s).calls =
      [GatewayCall.assessImageQuality (g.image_path.getD "")
        (a.visual_summary.getD "AI generated content"),
       GatewayCall.finalizeContent (g.image_path.getD "")
        (a.visual_summary.getD "AI generated content") "modern" "instagram" 15] := by
  unfold WorkflowManager.assess_quality WorkflowManager.add_status_log
  by_cases h1 : errTruthy client.assess.error <;>
    by_cases h2 : errTruthy client.finalize.error <;>
      simp [hg, ha, h1, h2]

/-- Witness for C10: concrete run state after a successful generate, where the
caller had passed style "minimalist" to `generate_content`; the finalize call still
carries "modern", "instagram", 15. -/
theorem c10_witness :
    (WorkflowManager.generate_content okClient "minimalist" "12:00:03"
        (WorkflowManager.start_process okClient "12:00:02"
          (WorkflowManager.upload_materials okClient ["cat.jpg"] ["puzzle", "mobile"]
            "demo" "12:00:01" WorkflowManager.reset_workflow_state).state).state).state.generation_data =
      some okGeneration ∧
    (WorkflowManager.generate_content okClient "minimalist" "12:00:03"
        (WorkflowManager.start_process okClient "12:00:02"
          (WorkflowManager.upload_materials okClient ["cat.jpg"] ["puzzle", "mobile"]
            "demo" "12:00:01" WorkflowManager.reset_workflow_state).state).state).state.analysis_data =
      some okAnalysis ∧
    (WorkflowManager.assess_quality okClient "12:00:04"
        (WorkflowManager.generate_content okClient "minimalist" "12:00:03"
          (WorkflowManager.start_process okClient "12:00:02"
            (WorkflowManager.upload_materials okClient ["cat.jpg"] ["puzzle", "mobile"]
              "demo" "12:00:01" WorkflowManager.reset_workflow_state).state).state).state).calls =
      [GatewayCall.assessImageQuality (okGeneration.image_path.getD "")
        (okAnalysis.visual_summary.getD "AI generated content"),
       GatewayCall.finalizeContent (okGeneration.image_path.getD "")
        (okAnalysis.visual_summary.getD "AI generated content") "modern" "instagram" 15] :=
  ⟨by decide, by decide,
   c10_finalize_constants okClient "12:00:04"
     (WorkflowManager.generate_content okClient "minimalist" "12:00:03"
        (WorkflowManager.start_process okClient "12:00:02"
          (WorkflowManager.upload_materials okClient ["cat.jpg"] ["puzzle", "mobile"]
            "demo" "12:00:01" WorkflowManager.reset_workflow_state).state).state).state
     okGeneration okAnalysis (by decide) (by decide)⟩

/-- C7: when the Quality-Assess gateway call fails, `assess_quality` substitutes the
default score `0.7`, records a warning-severity log entry, and still issues the
finalize gateway call; if finalize succeeds the run completes at step 4 with the
default score in the final output, while a finalize error makes the operation
return `False` without changing the step. -/
theorem c7_assess_failure_degrades (client : ClientResults) (now : String)
    (s : WorkflowState) (g : GenerationResult) (a : AnalysisResult)
    (hg : s.generation_data = some g) (ha : s.analysis_data = some a)
    (hq : errTruthy client.assess.error = true) :
    ({ time := now
       message := "⚠️ Kalite değerlendirmesi hatası: " ++ client.assess.error.getD ""
       status := "warning" } : LogEntry) ∈
      (WorkflowManager.assess_quality client now s).state.status_logs ∧
    GatewayCall.finalizeContent (g.image_path.getD "")
        (a.visual_summary.getD "AI generated content") "modern" "instagram" 15 ∈
      (WorkflowManager.assess_quality client now s).calls ∧
    (errTruthy client.finalize.error = false →
      (WorkflowManager.assess_quality client now s).ok = true ∧
      (WorkflowManager.assess_quality client now s).state.step = 4 ∧
      Option.map FinalOutput.quality_score
          (WorkflowManager.assess_quality client now s).state.final_output =
        some (7/10 : ℚ)) ∧
    (errTruthy client.finalize.error = true →
      (WorkflowManager.assess_quality client now s).ok = false ∧
      (WorkflowManager.assess_quality client now s).state.step = s.step) := by
  unfold WorkflowManager.assess_quality WorkflowManager.add_status_log
  by_cases hf : errTruthy client.finalize.error <;> simp [hg, ha, hq, hf]

/-- Witness for C7 in the remote world where only Quality-Assess fails: warning log
entry recorded, finalize still called, run completed with the default score. -/
theorem c7_witness :
    (demoStateAfterGenerate assessDownClient).generation_data = some okGeneration ∧
    (demoStateAfterGenerate assessDownClient).analysis_data = some okAnalysis ∧
    errTruthy assessDownClient.assess.error = true ∧
    errTruthy assessDownClient.finalize.error = false ∧
    ({ time := "12:00:04"
       message := "⚠️ Kalite değerlendirmesi hatası: " ++ assessDownClient.assess.error.getD ""
       status := "warning" } : LogEntry) ∈
      (WorkflowManager.assess_quality assessDownClient "12:00:04"
        (demoStateAfterGenerate assessDownClient)).state.status_logs ∧
    GatewayCall.finalizeContent (okGeneration.image_path.getD "")
        (okAnalysis.visual_summary.getD "AI generated content") "modern" "instagram" 15 ∈
      (WorkflowManager.assess_quality assessDownClient "12:00:04"
        (demoStateAfterGenerate assessDownClient)).calls ∧
    ((WorkflowManager.assess_quality assessDownClient "12:00:04"
        (demoStateAfterGenerate assessDownClient)).ok = true ∧
     (WorkflowManager.assess_quality assessDownClient "12:00:04"
        (demoStateAfterGenerate assessDownClient)).state.step = 4 ∧
     Option.map FinalOutput.quality_score
        (WorkflowManager.assess_quality assessDownClient "12:00:04"
          (demoStateAfterGenerate assessDownClient)).state.final_output =
       some (7/10 : ℚ)) :=
  ⟨by decide, by decide, by decide, by decide,
   (c7_assess_failure_degrades assessDownClient "12:00:04"
     (demoStateAfterGenerate assessDownClient) okGeneration okAnalysis
     (by decide) (by decide) (by decide)).1,
   (c7_assess_failure_degrades assessDownClient "12:00:04"
     (demoStateAfterGenerate assessDownClient) okGeneration okAnalysis
     (by decide) (by decide) (by decide)).2.1,
   (c7_assess_failure_degrades assessDownClient "12:00:04"
     (demoStateAfterGenerate assessDownClient) okGeneration okAnalysis
     (by decide) (by decide) (by decide)).2.2.1 (by decide)⟩

/-- Counterexample for C3: re-invoking `upload_materials` after a successful
`start_process` moves the step backward, from 2 to 1, on a reachable run. -/
theorem c3_counterexample :
    (demoStateAfterProcess okClient).step = 2 ∧
    (WorkflowManager.upload_materials okClient ["dog.jpg"] ["retry"] "again" "12:00:05"
      (demoStateAfterProcess okClient)).state.step = 1 ∧
    (WorkflowManager.upload_materials okClient ["dog.jpg"] ["retry"] "again" "12:00:05"
        (demoStateAfterProcess okClient)).state.step <
      (demoStateAfterProcess okClient).step := by
  decide

/-- C3 (amended): every operation that returns `False` leaves the step unchanged,
and every operation that returns `True` sets the step to that operation's fixed
target (upload_materials to 1, start_process to 2, generate_content to 3,
assess_quality to 4).  In particular the step is non-decreasing only while
operations are invoked with non-decreasing targets; re-invoking an earlier
operation after the run has passed its target moves the step backward. -/
theorem c3_step_targets (client : ClientResults) (files kws : List String)
    (desc sty now : String) (s : WorkflowState) :
    (((WorkflowManager.upload_materials client files kws desc now s).ok = true →
        (WorkflowManager.upload_materials client files kws desc now s).state.step = 1) ∧
     ((WorkflowManager.upload_materials client files kws desc now s).ok = false →
        (WorkflowManager.upload_materials client files kws desc now s).state.step = s.step)) ∧
    (((WorkflowManager.start_process client now s).ok = true →
        (WorkflowManager.start_process client now s).state.step = 2) ∧
     ((WorkflowManager.start_process client now s).ok = false →
        (WorkflowManager.start_process client now s).state.step = s.step)) ∧
    (((WorkflowManager.generate_content client sty now s).ok = true →
        (WorkflowManager.generate_content client sty now s).state.step = 3) ∧
     ((WorkflowManager.generate_content client sty now s).ok = false →
        (WorkflowManager.generate_content client sty now s).state.step = s.step)) ∧
    (((WorkflowManager.assess_quality client now s).ok = true →
        (WorkflowManager.assess_quality client now s).state.step = 4) ∧
     ((WorkflowManager.assess_quality client now s).ok = false →
        (WorkflowManager.assess_quality client now s).state.step = s.step)) := by
  refine ⟨?_, ?_, ?_, ?_⟩
  · unfold WorkflowManager.upload_materials WorkflowManager.add_status_log
    by_cases hu : client.upload.success <;> simp [hu]
  · unfold WorkflowManager.start_process WorkflowManager.add_status_log
    by_cases h1 : errTruthy client.trend.error <;>
      by_cases h2 : errTruthy client.analysis.error <;> simp [h1, h2]
  · unfold WorkflowManager.generate_content WorkflowManager.add_status_log
    cases hana : s.analysis_data with
    | none => simp [hana]
    | some a =>
      cases htr : s.trend_data with
      | none => simp [hana, htr]
      | some t =>
        by_cases hgen : errTruthy client.generation.error <;> simp [hana, htr, hgen]
  · unfold WorkflowManager.assess_quality WorkflowManager.add_status_log
    cases hgen : s.generation_data with
    | none => simp [hgen]
    | some g =>
      cases hana : s.analysis_data with
      | none => simp [hgen, hana]
      | some a =>
        by_cases hq : errTruthy client.assess.error <;>
          by_cases hf : errTruthy client.finalize.error <;> simp [hgen, hana, hq, hf]

/-- Witness for C3 (amended): concrete successful upload on a fresh run sets the
step to 1; concrete failed generate leaves the step of that state unchanged. -/
theorem c3_witness :
    (WorkflowManager.upload_materials okClient ["cat.jpg"] ["puzzle", "mobile"] "demo"
      "12:00:01" WorkflowManager.reset_workflow_state).ok = true ∧
    (WorkflowManager.upload_materials okClient ["cat.jpg"] ["puzzle", "mobile"] "demo"
      "12:00:01" WorkflowManager.reset_workflow_state).state.step = 1 :=
  ⟨by decide,
   (c3_step_targets okClient ["cat.jpg"] ["puzzle", "mobile"] "demo" "modern" "12:00:01"
     WorkflowManager.reset_workflow_state).1.1 (by decide)⟩

/-- Counterexample for C4: after a successful upload, a `start_process` whose Trend
call succeeds but whose Analyze call fails commits the trend data yet leaves the
step at 1, so the asset entry for the Processed stage is populated although the
step has not reached that stage — the claimed equivalence is false on a reachable
run. -/
theorem c4_counterexample :
    ¬((WorkflowManager.start_process analysisDownClient "12:00:02"
          (demoStateAfterUpload analysisDownClient)).state.trend_data.isSome = true ↔
      2 ≤ (WorkflowManager.start_process analysisDownClient "12:00:02"
          (demoStateAfterUpload analysisDownClient)).state.step) := by
  decide

/-- C4 (amended): on a fresh run whose operations are invoked in pipeline order,
provided the Upload gateway call succeeds with a non-empty image list and the
Analyze gateway call succeeds, the asset entry of each stage is populated if and
only if the step has reached or passed that stage, after every operation — whatever
the outcomes of the Trend, Generate, Quality-Assess and Quality-Finalize calls.
Without the Analyze-success condition the equivalence fails: a `start_process`
whose Analyze call fails leaves the trend data populated while the step stays
below 2. -/
theorem c4_assets_track_step_in_order (client : ClientResults) (files kws : List String)
    (desc sty n1 n2 n3 n4 : String)
    (hu : client.upload.success = true) (hne : client.upload.images ≠ [])
    (ha : errTruthy client.analysis.error = false) :
    assetInv WorkflowManager.reset_workflow_state ∧
    assetInv (WorkflowManager.upload_materials client files kws desc n1
      WorkflowManager.reset_workflow_state).state ∧
    assetInv (WorkflowManager.start_process client n2
      (WorkflowManager.upload_materials client files kws desc n1
        WorkflowManager.reset_workflow_state).state).state ∧
    assetInv (WorkflowManager.generate_content client sty n3
      (WorkflowManager.start_process client n2
        (WorkflowManager.upload_materials client files kws desc n1
          WorkflowManager.reset_workflow_state).state).state).state ∧
    assetInv (WorkflowManager.assess_quality client n4
      (WorkflowManager.generate_content client sty n3
        (WorkflowManager.start_process client n2
          (WorkflowManager.upload_materials client files kws desc n1
            WorkflowManager.reset_workflow_state).state).state).state).state := by
  unfold assetInv WorkflowManager.reset_workflow_state WorkflowManager.upload_materials
    WorkflowManager.start_process WorkflowManager.generate_content
    WorkflowManager.assess_quality WorkflowManager.add_status_log
  by_cases ht : errTruthy client.trend.error <;>
    by_cases hg : errTruthy client.generation.error <;>
      by_cases hq : errTruthy client.assess.error <;>
        by_cases hf : errTruthy client.finalize.error <;>
          simp [hu, hne, ha, ht, hg, hq, hf]

/-- Witness for C4 (amended): the concrete remote world in which the Trend gateway
is down but Upload (with one image) and Analyze succeed, run in pipeline order from
the reset state — the invariant holds through the degraded run. -/
theorem c4_witness :
    trendDownClient.upload.success = true ∧
    trendDownClient.upload.images ≠ [] ∧
    errTruthy trendDownClient.analysis.error = false ∧
    (assetInv WorkflowManager.reset_workflow_state ∧
     assetInv (WorkflowManager.upload_materials trendDownClient ["cat.jpg"] ["puzzle", "mobile"]
       "demo" "12:00:01" WorkflowManager.reset_workflow_state).state ∧
     assetInv (WorkflowManager.start_process trendDownClient "12:00:02"
       (WorkflowManager.upload_materials trendDownClient ["cat.jpg"] ["puzzle", "mobile"]
         "demo" "12:00:01" WorkflowManager.reset_workflow_state).state).state ∧
     assetInv (WorkflowManager.generate_content trendDownClient "modern" "12:00:03"
       (WorkflowManager.start_process trendDownClient "12:00:02"
         (WorkflowManager.upload_materials trendDownClient ["cat.jpg"] ["puzzle", "mobile"]
           "demo" "12:00:01" WorkflowManager.reset_workflow_state).state).state).state ∧
     assetInv (WorkflowManager.assess_quality trendDownClient "12:00:04"
       (WorkflowManager.generate_content trendDownClient "modern" "12:00:03"
         (WorkflowManager.start_process trendDownClient "12:00:02"
           (WorkflowManager.upload_materials trendDownClient ["cat.jpg"] ["puzzle", "mobile"]
             "demo" "12:00:01" WorkflowManager.reset_workflow_state).state).state).state).state) :=
  ⟨by decide, by decide, by decide,
   c4_assets_track_step_in_order trendDownClient ["cat.jpg"] ["puzzle", "mobile"] "demo"
     "modern" "12:00:01" "12:00:02" "12:00:03" "12:00:04" (by decide) (by decide) (by decide)⟩

/-- Helper: appending a non-empty block of entries extends the log. -/
theorem logExtends_of_append (old t : List LogEntry) (e : LogEntry) :
    logExtends old (old ++ (e :: t)) :=
  ⟨e :: t, rfl, by simp⟩

/-- C6: every orchestrator transition appends at least one entry to the status log
before returning, on success and on failure alike, and only extends it: the log
before the operation is a prefix of the log after it, with no entry removed,
reordered or modified. -/
theorem c6_log_append_only (client : ClientResults) (files kws : List String)
    (desc sty now : String) (s : WorkflowState) :
    logExtends s.status_logs
      (WorkflowManager.upload_materials client files kws desc now s).state.status_logs ∧
    logExtends s.status_logs
      (WorkflowManager.start_process client now s).state.status_logs ∧
    logExtends s.status_logs
      (WorkflowManager.generate_content client sty now s).state.status_logs ∧
    logExtends s.status_logs
      (WorkflowManager.assess_quality client now s).state.status_logs := by
  refine ⟨?_, ?_, ?_, ?_⟩
  · unfold WorkflowManager.upload_materials WorkflowManager.add_status_log
    by_cases hu : client.upload.success <;> simp [hu] <;>
      exact logExtends_of_append _ _ _
  · unfold WorkflowManager.start_process WorkflowManager.add_status_log
    by_cases h1 : errTruthy client.trend.error <;>
      by_cases h2 : errTruthy client.analysis.error <;> simp [h1, h2] <;>
        exact logExtends_of_append _ _ _
  · unfold WorkflowManager.generate_content WorkflowManager.add_status_log
    cases hana : s.analysis_data with
    | none => simp [hana]; exact logExtends_of_append _ _ _
    | some a =>
      cases htr : s.trend_data with
      | none => simp [hana, htr]; exact logExtends_of_append _ _ _
      | some t =>
        by_cases hgen : errTruthy client.generation.error <;>
          simp [hana, htr, hgen] <;> exact logExtends_of_append _ _ _
  · unfold WorkflowManager.assess_quality WorkflowManager.add_status_log
    cases hgen : s.generation_data with
    | none => simp [hgen]; exact logExtends_of_append _ _ _
    | some g =>
      cases hana : s.analysis_data with
      | none => simp [hgen, hana]; exact logExtends_of_append _ _ _
      | some a =>
        by_cases hq : errTruthy client.assess.error <;>
          by_cases hf : errTruthy client.finalize.error <;>
            simp [hgen, hana, hq, hf] <;> exact logExtends_of_append _ _ _
